import Mathlib

/-!
Verification of the refresh-session (token rotation) core of the
aiogram-django-template repository: the refresh-session service
(src/infrastructure/django/refresh_sessions/services.py), its persisted
model (src/infrastructure/django/refresh_sessions/models.py), the JWT
codec (src/infrastructure/jwt/services.py), the FastAPI authentication
gate (src/infrastructure/fastapi/auth.py), the credential lookup
(src/core/user/services.py) and the token controller
(src/delivery/http/user/controllers.py).

Modelling conventions:
* datetimes are integers (seconds); `timezone.now()` / `datetime.now(tz=UTC)`
  become an explicit `now : Int` argument;
* the database table of `BaseRefreshSession` rows is a `List RefreshSession`,
  Django model `pk` values are `Nat`;
* external collaborators are explicit parameters: `hashFn` stands for
  `hashlib.sha256(token.encode()).hexdigest()`, and the fresh random token of
  `secrets.token_urlsafe` is passed in as an argument `newToken`;
* fallible operations return `Except`; `@transaction.atomic` bodies are
  single pure functions (the whole read-modify-write is one step).
-/

/-- One row of `BaseRefreshSession`
(src/infrastructure/django/refresh_sessions/models.py). Field names follow
the Django model; `userId` stands for `user.pk` of the foreign key. -/
structure RefreshSession where
  id : Nat
  refresh_token_hash : String
  user_agent : String
  ip_address : Option String
  created_at : Int
  last_used_at : Option Int
  expires_at : Int
  revoked_at : Option Int
  rotation_counter : Nat
  userId : Nat
deriving Repr, DecidableEq

/-- `BaseRefreshSession.is_active`: `revoked_at is None and expires_at > timezone.now()`. -/
def RefreshSession.is_active (s : RefreshSession) (now : Int) : Bool :=
  s.revoked_at == none && decide (s.expires_at > now)

/-- The refresh-session table. The `refresh_token_hash` column carries a
uniqueness constraint (`unique=True`), expressed where needed as the
`hashesNodup` hypothesis below. -/
abbrev SessionStore := List RefreshSession

/-- Uniqueness constraint on the `refresh_token_hash` column. -/
def hashesNodup (store : SessionStore) : Prop :=
  (store.map RefreshSession.refresh_token_hash).Nodup

instance (store : SessionStore) : Decidable (hashesNodup store) := by
  unfold hashesNodup; infer_instance

/-- `self._refresh_session_model.objects.get(refresh_token_hash=h)`:
under the uniqueness constraint at most one row matches, so Django's
`.get` is the first (only) match. -/
def findByHash (store : SessionStore) (h : String) : Option RefreshSession :=
  store.find? (fun s => s.refresh_token_hash == h)

/-- `session.save(...)` persists the row back by primary key. -/
def saveSession (store : SessionStore) (s : RefreshSession) : SessionStore :=
  store.map (fun r => if r.id = s.id then s else r)

/-- The error taxonomy of the refresh-session service:
`InvalidRefreshTokenError` and `ExpiredRefreshTokenError`
(both subclasses of `RefreshTokenError`). -/
inductive RefreshTokenError where
  | invalidRefreshToken
  | expiredRefreshToken
deriving Repr, DecidableEq

/-- `RefreshSessionService._get_refresh_session`: look up the row whose
stored hash equals `hashFn refreshToken`; raise `InvalidRefreshTokenError`
if none exists (`DoesNotExist`), `ExpiredRefreshTokenError` if the row is
not active. -/
def get_refresh_session (hashFn : String → String) (store : SessionStore)
    (now : Int) (refreshToken : String) :
    Except RefreshTokenError RefreshSession :=
  match findByHash store (hashFn refreshToken) with
  | none => .error .invalidRefreshToken
  | some s =>
    if s.is_active now then .ok s else .error .expiredRefreshToken

/-- `RefreshSessionService.rotate_refresh_token` (under `@transaction.atomic`):
find the session by hash of the presented token, then replace
`refresh_token_hash` with the hash of the freshly generated token
(`newToken`, standing for `secrets.token_urlsafe(...)`), increment
`rotation_counter`, stamp `last_used_at = now`, and save exactly those
three fields. Returns `RefreshSessionResult(refresh_token, session)`
together with the updated table. -/
def rotate_refresh_token (hashFn : String → String) (store : SessionStore)
    (now : Int) (newToken : String) (refreshToken : String) :
    Except RefreshTokenError (String × RefreshSession × SessionStore) :=
  match get_refresh_session hashFn store now refreshToken with
  | .error e => .error e
  | .ok s =>
    let s2 : RefreshSession :=
      { s with
        refresh_token_hash := hashFn newToken
        rotation_counter := s.rotation_counter + 1
        last_used_at := some now }
    .ok (newToken, s2, saveSession store s2)

/-- `RefreshSessionService.revoke_refresh_token` (under `@transaction.atomic`):
find the session, raise `InvalidRefreshTokenError` when
`session.user.pk != user.pk`, otherwise set `revoked_at = now` and save it. -/
def revoke_refresh_token (hashFn : String → String) (store : SessionStore)
    (now : Int) (refreshToken : String) (callerUserId : Nat) :
    Except RefreshTokenError SessionStore :=
  match get_refresh_session hashFn store now refreshToken with
  | .error e => .error e
  | .ok s =>
    if s.userId ≠ callerUserId then .error .invalidRefreshToken
    else
      let s2 : RefreshSession := { s with revoked_at := some now }
      .ok (saveSession store s2)

/-- A JWT claim value: the payloads built by `JWTService.issue_access_token`
hold strings (`sub`, `typ`) and datetimes (`exp`, `iat`, modelled as `Int`). -/
inductive ClaimValue where
  | str (s : String)
  | int (n : Int)
deriving Repr, DecidableEq

/-- A Python dict of claims, as the ordered list of bindings produced by the
dict literal `{standard entries, **payload_kwargs}`; on lookup the LAST
binding of a key wins, which is exactly the dict-literal override
semantics. -/
abbrev Claims := List (String × ClaimValue)

/-- Dict lookup with last-binding-wins semantics (`payload.get(k)`). -/
def dictGet : Claims → String → Option ClaimValue
  | [], _ => none
  | (k2, v) :: rest, k =>
    match dictGet rest k with
    | some v2 => some v2
    | none => if k2 == k then some v else none

/-- Deterministic string digest used to model the HMAC primitive. -/
def strHash (s : String) : Nat :=
  s.data.foldl (fun h c => h * 131 + c.toNat + 1) 7

/-- Canonical serialization of one claim value for signing. -/
def claimValueRepr : ClaimValue → String
  | .str s => "s:" ++ s
  | .int n => "i:" ++ toString n

/-- Canonical serialization of a claims dict for signing. -/
def serializeClaims (cs : Claims) : String :=
  cs.foldl (fun acc p => acc ++ p.1 ++ "=" ++ claimValueRepr p.2 ++ ";") ""

/-- Model of the keyed signature (HMAC-SHA256 by default) computed by the
`jwt` library over the payload: a deterministic function of the algorithm,
the key and the claims. -/
def macOf (alg key : String) (cs : Claims) : Nat :=
  strHash (alg ++ "|" ++ key ++ "|" ++ serializeClaims cs)

/-- A structurally well-formed signed token: header algorithm, payload,
signature. -/
structure SignedToken where
  alg : String
  claims : Claims
  mac : Nat
deriving Repr, DecidableEq

/-- An encoded token string as the decoder sees it: either not parseable as
a JWT at all (`malformed`) or a parsed header/payload/signature triple. -/
inductive EncodedToken where
  | malformed (raw : String)
  | signed (t : SignedToken)
deriving Repr, DecidableEq

/-- `jwt.encode(payload, key, algorithm)`: sign the claims with the key. -/
def jwtEncode (key alg : String) (cs : Claims) : EncodedToken :=
  .signed ⟨alg, cs, macOf alg key cs⟩

/-- The `jwt` library error taxonomy as used by the code:
`ExpiredSignatureError` (a subclass of `InvalidTokenError`) and every other
verification failure collapsed to `InvalidTokenError`. -/
inductive TokenError where
  | expiredSignature
  | invalidToken
deriving Repr, DecidableEq

/-- `jwt.decode(token, key, algorithms=[alg])`: reject malformed input,
a header algorithm outside the allowed list, or a signature mismatch as
`InvalidTokenError`; then validate `exp` when present — a non-integer `exp`
is `InvalidTokenError`, `exp <= now` is `ExpiredSignatureError` — and
return the claims. -/
def jwtDecode (key alg : String) (now : Int) :
    EncodedToken → Except TokenError Claims
  | .malformed _ => .error .invalidToken
  | .signed t =>
    if t.alg ≠ alg then .error .invalidToken
    else if t.mac ≠ macOf t.alg key t.claims then .error .invalidToken
    else
      match dictGet t.claims "exp" with
      | none => .ok t.claims
      | some (.int e) =>
        if e ≤ now then .error .expiredSignature else .ok t.claims
      | some (.str _) => .error .invalidToken

/-- `JWTServiceSettings` (src/infrastructure/jwt/services.py): signing
secret, algorithm defaulting to HS256, access-token TTL defaulting to
15 minutes. -/
structure JWTServiceSettings where
  secret_key : String
  algorithm : String := "HS256"
  access_token_expire_minutes : Int := 15
deriving Repr, DecidableEq

/-- `JWTServiceSettings.access_token_expire`:
`timedelta(minutes=access_token_expire_minutes)`, in seconds. -/
def JWTServiceSettings.access_token_expire (st : JWTServiceSettings) : Int :=
  st.access_token_expire_minutes * 60

/-- The claim keys `JWTService.issue_access_token` always writes before
merging `payload_kwargs`. -/
def standardClaimKeys : List String := ["sub", "exp", "iat", "typ"]

/-- `JWTService.issue_access_token(user_id, **payload_kwargs)`: build the
payload dict `{sub: str(user_id), exp: iat + expire, iat: iat,
typ: "at+jwt", **payload_kwargs}` (kwargs listed last, so they override on
lookup) and sign it. -/
def issue_access_token (st : JWTServiceSettings) (now : Int) (userId : Nat)
    (payload_kwargs : Claims) : EncodedToken :=
  let iat := now
  let payload : Claims :=
    [("sub", .str (toString userId)),
     ("exp", .int (iat + st.access_token_expire)),
     ("iat", .int iat),
     ("typ", .str "at+jwt")] ++ payload_kwargs
  jwtEncode st.secret_key st.algorithm payload

/-- `JWTService.decode_token(token)`: decode against the configured secret
and the single configured algorithm. -/
def decode_token (st : JWTServiceSettings) (now : Int) (token : EncodedToken) :
    Except TokenError Claims :=
  jwtDecode st.secret_key st.algorithm now token

/-- The user-identity fields the authentication gate reads
(`request.state.user`): primary key and the permission flags consulted by
`JWTAuthWithPermissions`. -/
structure GateUser where
  id : Nat
  is_staff : Bool
  is_superuser : Bool
deriving Repr, DecidableEq

/-- Outcome of one gate invocation: the resolved user, an
`HTTPException(401, detail)` or an `HTTPException(403, detail)`. -/
inductive AuthOutcome where
  | ok (u : GateUser)
  | unauthorized (detail : String)
  | forbidden (detail : String)
deriving Repr, DecidableEq

/-- `self._user_model.objects.aget(id=user_id)` — the user-lookup-by-id
collaborator of the spec: the user whose pk matches the `sub` value, or
none (`DoesNotExist`). -/
def lookupUserById (users : List GateUser) (sub : ClaimValue) : Option GateUser :=
  users.find? (fun u =>
    match sub with
    | .str s => toString u.id == s
    | .int n => ((u.id : Int) == n))

/-- `JWTAuth.__call__` after `HTTPBearer` has yielded the credentials:
decode the token (expired → 401 "Token has expired", any other decode
failure → 401 "Invalid token"), require a `sub` claim (401 if absent),
resolve the user by id (401 "User not found" if none), and succeed. -/
def jwt_auth_call (st : JWTServiceSettings) (users : List GateUser)
    (now : Int) (token : EncodedToken) : AuthOutcome :=
  match decode_token st now token with
  | .error .expiredSignature => .unauthorized "Token has expired"
  | .error .invalidToken => .unauthorized "Invalid token"
  | .ok payload =>
    match dictGet payload "sub" with
    | none => .unauthorized "Token payload missing \x27sub\x27 field"
    | some sub =>
      match lookupUserById users sub with
      | none => .unauthorized "User not found"
      | some u => .ok u

/-- `JWTAuthWithPermissions.__call__`: run the base gate, then the
construction-time flag checks — `require_staff` without `is_staff` → 403
"Staff access required", `require_superuser` without `is_superuser` → 403
"Superuser access required". -/
def jwt_auth_with_permissions (st : JWTServiceSettings)
    (users : List GateUser) (now : Int)
    (require_staff require_superuser : Bool) (token : EncodedToken) :
    AuthOutcome :=
  match jwt_auth_call st users now token with
  | .ok u =>
    if require_staff && !u.is_staff then .forbidden "Staff access required"
    else if require_superuser && !u.is_superuser then
      .forbidden "Superuser access required"
    else .ok u
  | e => e

/-- A row of the user table as the credential check sees it; `password`
stands for the stored credential, and the external
`user.check_password(...)` hashing collaborator is modelled as equality
with it. -/
structure CredUser where
  id : Nat
  username : String
  password : String
deriving Repr, DecidableEq

/-- `UserService.get_user_by_username_and_password`: fetch the user by
username (`DoesNotExist` → None), then `check_password` (mismatch → None);
both failures return the same None. -/
def get_user_by_username_and_password (users : List CredUser)
    (username password : String) : Option CredUser :=
  match users.find? (fun u => u.username == username) with
  | none => none
  | some user => if user.password == password then some user else none

/-- `RefreshSessionServiceSettings`: refresh-token entropy and TTL
(default 30 days), TTL converted to seconds. -/
structure RefreshSessionServiceSettings where
  refresh_token_nbytes : Nat := 32
  refresh_token_ttl_days : Nat := 30
deriving Repr, DecidableEq

/-- `RefreshSessionServiceSettings.refresh_token_ttl`:
`timedelta(days=refresh_token_ttl_days)`, in seconds. -/
def RefreshSessionServiceSettings.refresh_token_ttl
    (st : RefreshSessionServiceSettings) : Int :=
  st.refresh_token_ttl_days * 86400

/-- `RefreshSessionService.create_refresh_session`: persist a new row with
the hash of the freshly generated token (`freshToken` stands for
`secrets.token_urlsafe(...)`, `newId` for the generated pk),
`expires_at = now + ttl`, and return the raw token with the session. -/
def create_refresh_session (rsSt : RefreshSessionServiceSettings)
    (hashFn : String → String) (store : SessionStore) (now : Int)
    (freshToken : String) (newId : Nat) (userId : Nat)
    (user_agent : String) (ip_address : Option String) :
    String × RefreshSession × SessionStore :=
  let s : RefreshSession :=
    { id := newId
      refresh_token_hash := hashFn freshToken
      user_agent := user_agent
      ip_address := ip_address
      created_at := now
      last_used_at := none
      expires_at := now + rsSt.refresh_token_ttl
      revoked_at := none
      rotation_counter := 0
      userId := userId }
  (freshToken, s, store ++ [s])

/-- Outcome of the token endpoints: a `TokenResponseSchema` body or an
`HTTPException(401, detail)`. -/
inductive TokenEndpointOutcome where
  | success (access_token : EncodedToken) (refresh_token : String)
  | unauthorized (detail : String)
deriving Repr, DecidableEq

/-- `UserTokenController.issue_user_token` (POST /v1/users/me/token): look
the user up by credentials; on None answer 401 "Invalid username or
password", otherwise issue an access token and create a refresh session. -/
def issue_user_token (jwtSt : JWTServiceSettings)
    (rsSt : RefreshSessionServiceSettings) (users : List CredUser)
    (hashFn : String → String) (store : SessionStore) (now : Int)
    (freshToken : String) (newId : Nat)
    (user_agent : String) (ip_address : Option String)
    (username password : String) : TokenEndpointOutcome × SessionStore :=
  match get_user_by_username_and_password users username password with
  | none => (.unauthorized "Invalid username or password", store)
  | some user =>
    let access_token := issue_access_token jwtSt now user.id []
    let r := create_refresh_session rsSt hashFn store now freshToken newId
      user.id user_agent ip_address
    (.success access_token r.1, r.2.2)

/-- `UserTokenController.refresh_user_token`
(POST /v1/users/me/token/refresh): rotate the presented refresh token
(service errors propagate, mapped to 401 by `handle_exception`), then issue
an access token for `rotated_session.session.user.pk` and return both. -/
def refresh_user_token (jwtSt : JWTServiceSettings)
    (hashFn : String → String) (store : SessionStore) (now : Int)
    (newToken : String) (body_refresh_token : String) :
    Except RefreshTokenError (EncodedToken × String × SessionStore) :=
  match rotate_refresh_token hashFn store now newToken body_refresh_token with
  | .error e => .error e
  | .ok (tok, session, store2) =>
    .ok (issue_access_token jwtSt now session.userId [], tok, store2)

/-! ### Helper lemmas about the session store -/

/-- A hit of `findByHash` is a member of the table carrying that hash. -/
theorem findByHash_mem {store : SessionStore} {h : String} {s : RefreshSession}
    (hf : findByHash store h = some s) :
    s ∈ store ∧ s.refresh_token_hash = h := by
  unfold findByHash at hf
  refine ⟨List.mem_of_find?_eq_some hf, ?_⟩
  have hp := List.find?_some hf
  simpa using hp

/-- Under the uniqueness constraint, the hash determines the row. -/
theorem hash_eq_unique {store : SessionStore} {r s : RefreshSession}
    (hnd : hashesNodup store) (hr : r ∈ store) (hs : s ∈ store)
    (h : r.refresh_token_hash = s.refresh_token_hash) : r = s := by
  unfold hashesNodup at hnd
  exact List.inj_on_of_nodup_map hnd hr hs h

/-- `find?` returns the designated element when it is the only satisfying
one. -/
theorem find?_eq_some_of_unique {α : Type} {p : α → Bool} {a : α} :
    ∀ {l : List α}, a ∈ l → p a = true → (∀ x ∈ l, p x = true → x = a) →
    l.find? p = some a := by
  intro l
  induction l with
  | nil => intro h _ _; cases h
  | cons x xs ih =>
    intro hmem hpa hall
    cases hx : p x with
    | true =>
      have hxa : x = a := hall x (List.mem_cons_self x xs) hx
      subst hxa
      simp [List.find?, hx]
    | false =>
      have hxa : x ≠ a := fun he => by rw [he, hpa] at hx; cases hx
      have hmem2 : a ∈ xs := by
        cases hmem with
        | head => exact absurd rfl hxa
        | tail _ h => exact h
      simp only [List.find?, hx]
      exact ih hmem2 hpa (fun y hy hpy => hall y (List.mem_cons_of_mem x hy) hpy)

/-- The saved row is a member of the updated table. -/
theorem mem_saveSession_self {store : SessionStore} {s s2 : RefreshSession}
    (hs : s ∈ store) (hid : s.id = s2.id) : s2 ∈ saveSession store s2 := by
  have hm := List.mem_map_of_mem (fun r => if r.id = s2.id then s2 else r) hs
  have hm2 : (if s.id = s2.id then s2 else s) ∈ saveSession store s2 := hm
  rwa [if_pos hid] at hm2

/-- After saving a row that changed its hash away from `h`, no row of the
updated table carries `h` any more (uniqueness: only the found row had it). -/
theorem findByHash_saveSession_none {store : SessionStore} {h : String}
    {s s2 : RefreshSession}
    (hnd : hashesNodup store) (hf : findByHash store h = some s)
    (hid : s2.id = s.id) (hneq : s2.refresh_token_hash ≠ h) :
    findByHash (saveSession store s2) h = none := by
  obtain ⟨hsmem, hsh⟩ := findByHash_mem hf
  unfold findByHash saveSession
  rw [List.find?_eq_none]
  intro r2 hr2
  obtain ⟨r, hr, hmap⟩ := List.mem_map.mp hr2
  have hmap2 : (if r.id = s2.id then s2 else r) = r2 := hmap
  by_cases hc : r.id = s2.id
  · rw [if_pos hc] at hmap2
    rw [← hmap2]
    simp [hneq]
  · rw [if_neg hc] at hmap2
    simp only [beq_iff_eq]
    intro hcon
    have hrs : r2 = s := hash_eq_unique hnd (hmap2 ▸ hr) hsmem (by rw [hcon, hsh])
    exact hc (by rw [hmap2, hrs, hid])

/-- After saving a row, looking its (new) hash up finds exactly the saved
row, provided no other row carries that hash. -/
theorem findByHash_saveSession_self {store : SessionStore}
    {s s2 : RefreshSession}
    (hs : s ∈ store) (hid : s.id = s2.id)
    (honly : ∀ r ∈ store,
      r.refresh_token_hash = s2.refresh_token_hash → r.id = s2.id) :
    findByHash (saveSession store s2) s2.refresh_token_hash = some s2 := by
  unfold findByHash
  apply find?_eq_some_of_unique (mem_saveSession_self hs hid) (by simp)
  intro r2 hr2 hp
  unfold saveSession at hr2
  obtain ⟨r, hr, hmap⟩ := List.mem_map.mp hr2
  have hmap2 : (if r.id = s2.id then s2 else r) = r2 := hmap
  by_cases hc : r.id = s2.id
  · rw [if_pos hc] at hmap2
    exact hmap2.symm
  · rw [if_neg hc] at hmap2
    have hid2 : r2.id = s2.id := honly r2 (hmap2 ▸ hr) (by simpa using hp)
    exact absurd (hmap2.symm ▸ hid2) hc

/-- Forward evaluation of `rotate_refresh_token` on a found active session. -/
theorem rotate_refresh_token_found_active {hashFn : String → String}
    {store : SessionStore} {now : Int} {newTok t : String}
    {s : RefreshSession}
    (hf : findByHash store (hashFn t) = some s)
    (hact : s.is_active now = true) :
    rotate_refresh_token hashFn store now newTok t =
      .ok (newTok,
        { s with
          refresh_token_hash := hashFn newTok
          rotation_counter := s.rotation_counter + 1
          last_used_at := some now },
        saveSession store
          { s with
            refresh_token_hash := hashFn newTok
            rotation_counter := s.rotation_counter + 1
            last_used_at := some now }) := by
  unfold rotate_refresh_token get_refresh_session
  rw [hf]
  simp [hact]

/-- Inversion of a successful `rotate_refresh_token`. -/
theorem rotate_refresh_token_ok_inv {hashFn : String → String}
    {store : SessionStore} {now : Int} {newTok t tok : String}
    {s2 : RefreshSession} {store2 : SessionStore}
    (h : rotate_refresh_token hashFn store now newTok t =
      .ok (tok, s2, store2)) :
    ∃ s, findByHash store (hashFn t) = some s ∧ s.is_active now = true ∧
      tok = newTok ∧
      s2 = { s with
        refresh_token_hash := hashFn newTok
        rotation_counter := s.rotation_counter + 1
        last_used_at := some now } ∧
      store2 = saveSession store s2 := by
  cases hf : findByHash store (hashFn t) with
  | none =>
    unfold rotate_refresh_token get_refresh_session at h
    rw [hf] at h
    simp at h
  | some s =>
    cases hact : s.is_active now with
    | false =>
      unfold rotate_refresh_token get_refresh_session at h
      rw [hf] at h
      simp [hact] at h
    | true =>
      rw [rotate_refresh_token_found_active hf hact] at h
      have hinj := Except.ok.inj h
      have h1 : newTok = tok := congrArg Prod.fst hinj
      have h2 :
          ({ s with
            refresh_token_hash := hashFn newTok
            rotation_counter := s.rotation_counter + 1
            last_used_at := some now } : RefreshSession) = s2 :=
        congrArg (fun p => p.2.1) hinj
      have h3 :
          saveSession store
            { s with
              refresh_token_hash := hashFn newTok
              rotation_counter := s.rotation_counter + 1
              last_used_at := some now } = store2 :=
        congrArg (fun p => p.2.2) hinj
      exact ⟨s, rfl, hact, h1.symm, h2.symm, by rw [← h2, ← h3]⟩

/-- Forward evaluation of `revoke_refresh_token` on a found active session
owned by the caller. -/
theorem revoke_refresh_token_found_active {hashFn : String → String}
    {store : SessionStore} {now : Int} {t : String} {u : Nat}
    {s : RefreshSession}
    (hf : findByHash store (hashFn t) = some s)
    (hact : s.is_active now = true) (hu : s.userId = u) :
    revoke_refresh_token hashFn store now t u =
      .ok (saveSession store { s with revoked_at := some now }) := by
  unfold revoke_refresh_token get_refresh_session
  rw [hf]
  simp [hact, hu]

/-- Inversion of a successful `revoke_refresh_token`. -/
theorem revoke_refresh_token_ok_inv {hashFn : String → String}
    {store : SessionStore} {now : Int} {t : String} {u : Nat}
    {store2 : SessionStore}
    (h : revoke_refresh_token hashFn store now t u = .ok store2) :
    ∃ s, findByHash store (hashFn t) = some s ∧ s.is_active now = true ∧
      s.userId = u ∧
      store2 = saveSession store { s with revoked_at := some now } := by
  cases hf : findByHash store (hashFn t) with
  | none =>
    unfold revoke_refresh_token get_refresh_session at h
    rw [hf] at h
    simp at h
  | some s =>
    cases hact : s.is_active now with
    | false =>
      unfold revoke_refresh_token get_refresh_session at h
      rw [hf] at h
      simp [hact] at h
    | true =>
      by_cases hu : s.userId = u
      · rw [revoke_refresh_token_found_active hf hact hu] at h
        exact ⟨s, rfl, hact, hu, (Except.ok.inj h).symm⟩
      · unfold revoke_refresh_token get_refresh_session at h
        rw [hf] at h
        simp [hact, hu] at h

/-- After a successful rotation the updated table maps the new token hash
to the updated row, whose stored hash is that new hash. -/
theorem rotate_updated_row_found
    {hashFn : String → String} {store store1 : SessionStore} {now : Int}
    {n1 t0 tok1 : String} {s2 : RefreshSession}
    (h0 : rotate_refresh_token hashFn store now n1 t0 = .ok (tok1, s2, store1))
    (hfresh : ∀ r ∈ store, r.refresh_token_hash ≠ hashFn n1) :
    findByHash store1 (hashFn n1) = some s2 ∧
    s2.refresh_token_hash = hashFn n1 := by
  obtain ⟨s, hf, hact, htok, hs2, hst⟩ := rotate_refresh_token_ok_inv h0
  subst hst
  have hh : s2.refresh_token_hash = hashFn n1 := by rw [hs2]
  refine ⟨?_, hh⟩
  obtain ⟨hsmem, hsh⟩ := findByHash_mem hf
  rw [← hh]
  refine findByHash_saveSession_self hsmem ?_ ?_
  · rw [hs2]
  · intro r hr hcon
    exact absurd (by rw [hcon, hh]) (hfresh r hr)

/-- C3 — Revoke ownership check with atomicity on error: when the presented
token matches an active session `s` and the caller is not the owner,
`revoke_refresh_token` fails with `InvalidRefreshTokenError` and the
session is untouched (the error is raised before any write, so the table
is unchanged): `revoked_at` is still `None` and the very same table still
rotates the token successfully; and a revocation can only succeed when the
caller is the owner. -/
theorem revoke_ownership_check
    (hashFn : String → String) (store : SessionStore) (now : Int)
    (t : String) (u : Nat) (s : RefreshSession)
    (hf : findByHash store (hashFn t) = some s)
    (hact : s.is_active now = true)
    (hne : u ≠ s.userId) :
    revoke_refresh_token hashFn store now t u =
      .error .invalidRefreshToken ∧
    s.revoked_at = none ∧
    (∀ ntk : String, ∃ s2,
      rotate_refresh_token hashFn store now ntk t =
        .ok (ntk, s2, saveSession store s2)) ∧
    (∀ (u2 : Nat) (store2 : SessionStore),
      revoke_refresh_token hashFn store now t u2 = .ok store2 →
        u2 = s.userId) := by
  have hne2 : s.userId ≠ u := Ne.symm hne
  refine ⟨?_, ?_, ?_, ?_⟩
  · unfold revoke_refresh_token get_refresh_session
    rw [hf]
    simp [hact, hne2]
  · unfold RefreshSession.is_active at hact
    have hrv := ((Bool.and_eq_true _ _).mp hact).1
    simpa using hrv
  · intro ntk
    exact ⟨_, rotate_refresh_token_found_active hf hact⟩
  · intro u2 store2 hok
    obtain ⟨s3, hf3, hact3, hu3, _⟩ := revoke_refresh_token_ok_inv hok
    rw [hf] at hf3
    have hs3 := Option.some.inj hf3
    rw [← hu3, ← hs3]

/-- C2 — Rotation frame effect: a successful rotation of an active matched
session changes exactly `refresh_token_hash` (to the hash of the new
token), `rotation_counter` (by one) and `last_used_at` (to `now`), saving
only that row, and leaves `id`, `userId`, `user_agent`, `ip_address`,
`created_at`, `expires_at` and `revoked_at` unchanged — in particular it
neither extends the expiry nor clears revocation state. -/
theorem rotation_frame_effect
    (hashFn : String → String) (store : SessionStore) (now : Int)
    (newTok t : String) (s : RefreshSession)
    (hf : findByHash store (hashFn t) = some s)
    (hact : s.is_active now = true) :
    ∃ s2,
      rotate_refresh_token hashFn store now newTok t =
        .ok (newTok, s2, saveSession store s2) ∧
      s2.refresh_token_hash = hashFn newTok ∧
      s2.rotation_counter = s.rotation_counter + 1 ∧
      s2.last_used_at = some now ∧
      s2.id = s.id ∧ s2.userId = s.userId ∧ s2.user_agent = s.user_agent ∧
      s2.ip_address = s.ip_address ∧ s2.created_at = s.created_at ∧
      s2.expires_at = s.expires_at ∧ s2.revoked_at = s.revoked_at :=
  ⟨_, rotate_refresh_token_found_active hf hact,
    rfl, rfl, rfl, rfl, rfl, rfl, rfl, rfl, rfl, rfl⟩

/-- A concrete session-hashing collaborator for witnesses. -/
def hashEx : String → String := fun t => "#" ++ t

/-- A concrete active session for witnesses. -/
def sessionEx : RefreshSession :=
  { id := 1
    refresh_token_hash := "#a"
    user_agent := "ua"
    ip_address := none
    created_at := 0
    last_used_at := none
    expires_at := 100
    revoked_at := none
    rotation_counter := 0
    userId := 7 }

/-- A concrete one-row table for witnesses. -/
def storeEx : SessionStore := [sessionEx]

/-- Rotation raises `InvalidRefreshTokenError` exactly when no stored row
carries the hash of the presented token. -/
theorem rotate_error_invalid_iff (hashFn : String → String)
    (store : SessionStore) (now : Int) (ntk tk : String) :
    rotate_refresh_token hashFn store now ntk tk =
        .error .invalidRefreshToken ↔
      ∀ r ∈ store, r.refresh_token_hash ≠ hashFn tk := by
  constructor
  · intro h
    cases hf : findByHash store (hashFn tk) with
    | none =>
      intro r hr heq
      unfold findByHash at hf
      rw [List.find?_eq_none] at hf
      exact hf r hr (by simp [heq])
    | some r =>
      exfalso
      cases hact : r.is_active now with
      | true =>
        rw [rotate_refresh_token_found_active hf hact] at h
        simp at h
      | false =>
        unfold rotate_refresh_token get_refresh_session at h
        rw [hf] at h
        simp [hact] at h
  · intro hall
    have hf : findByHash store (hashFn tk) = none := by
      unfold findByHash
      rw [List.find?_eq_none]
      intro r hr
      simp [hall r hr]
    unfold rotate_refresh_token get_refresh_session
    rw [hf]

/-- Rotation raises `ExpiredRefreshTokenError` exactly when the hash lookup
hits a row that is not active. -/
theorem rotate_error_expired_iff (hashFn : String → String)
    (store : SessionStore) (now : Int) (ntk tk : String) :
    rotate_refresh_token hashFn store now ntk tk =
        .error .expiredRefreshToken ↔
      ∃ r, findByHash store (hashFn tk) = some r ∧
        r.is_active now = false := by
  constructor
  · intro h
    cases hf : findByHash store (hashFn tk) with
    | none =>
      exfalso
      unfold rotate_refresh_token get_refresh_session at h
      rw [hf] at h
      simp at h
    | some r =>
      refine ⟨r, rfl, ?_⟩
      cases hact : r.is_active now with
      | true =>
        exfalso
        rw [rotate_refresh_token_found_active hf hact] at h
        simp at h
      | false => rfl
  · rintro ⟨r, hf, hact⟩
    unfold rotate_refresh_token get_refresh_session
    rw [hf]
    simp [hact]

/-- After a successful rotation, replaying the superseded token fails with
`InvalidRefreshTokenError`: its hash matches no row any more. -/
theorem rotate_then_replay_invalid
    {hashFn : String → String} {store store1 : SessionStore} {now : Int}
    {n1 t0 tok1 : String} {s2 : RefreshSession}
    (hnd : hashesNodup store)
    (h0 : rotate_refresh_token hashFn store now n1 t0 = .ok (tok1, s2, store1))
    (hfresh : ∀ r ∈ store, r.refresh_token_hash ≠ hashFn n1) :
    ∀ (now2 : Int) (ntk : String),
      rotate_refresh_token hashFn store1 now2 ntk t0 =
        .error .invalidRefreshToken := by
  intro now2 ntk
  obtain ⟨s, hf, hact, htok, hs2, hst⟩ := rotate_refresh_token_ok_inv h0
  obtain ⟨hsmem, hsh⟩ := findByHash_mem hf
  subst hst
  have hh : s2.refresh_token_hash = hashFn n1 := by rw [hs2]
  have hneq : s2.refresh_token_hash ≠ hashFn t0 := by
    rw [hh]
    intro hcon
    exact hfresh s hsmem (by rw [hsh, hcon])
  have hnone : findByHash (saveSession store s2) (hashFn t0) = none :=
    findByHash_saveSession_none hnd hf (by rw [hs2]) hneq
  unfold rotate_refresh_token get_refresh_session
  rw [hnone]

/-- After a successful rotation, the freshly returned token rotates
successfully (the session stays active, its hash now matches). -/
theorem rotate_successor_succeeds
    {hashFn : String → String} {store store1 : SessionStore} {now : Int}
    {n1 t0 tok1 : String} {s2 : RefreshSession}
    (hnd : hashesNodup store)
    (h0 : rotate_refresh_token hashFn store now n1 t0 = .ok (tok1, s2, store1))
    (hfresh : ∀ r ∈ store, r.refresh_token_hash ≠ hashFn n1) :
    ∀ ntk : String, ∃ s3 store3,
      rotate_refresh_token hashFn store1 now ntk tok1 =
        .ok (ntk, s3, store3) := by
  intro ntk
  obtain ⟨s, hf, hact, htok, hs2, hst⟩ := rotate_refresh_token_ok_inv h0
  obtain ⟨hsmem, hsh⟩ := findByHash_mem hf
  subst hst
  rw [htok]
  have hh : s2.refresh_token_hash = hashFn n1 := by rw [hs2]
  have hfound : findByHash (saveSession store s2) (hashFn n1) = some s2 := by
    rw [← hh]
    refine findByHash_saveSession_self hsmem ?_ ?_
    · rw [hs2]
    · intro r hr hcon
      exact absurd (by rw [hcon, hh]) (hfresh r hr)
  have hact2 : s2.is_active now = true := by
    rw [hs2]
    exact hact
  exact ⟨_, _, rotate_refresh_token_found_active hfound hact2⟩

/-- After a successful revocation, every subsequent rotation of the same
token fails with `ExpiredRefreshTokenError`, at any later time and with any
fresh token. -/
theorem revoke_then_rotate_expired
    {hashFn : String → String} {store store2 : SessionStore} {now : Int}
    {t : String} {u : Nat}
    (hnd : hashesNodup store)
    (hrev : revoke_refresh_token hashFn store now t u = .ok store2) :
    ∀ (now2 : Int) (ntk : String),
      rotate_refresh_token hashFn store2 now2 ntk t =
        .error .expiredRefreshToken := by
  intro now2 ntk
  obtain ⟨s, hf, hact, hu, hst⟩ := revoke_refresh_token_ok_inv hrev
  obtain ⟨hsmem, hsh⟩ := findByHash_mem hf
  subst hst
  have hfound :
      findByHash (saveSession store { s with revoked_at := some now })
        (hashFn t) = some { s with revoked_at := some now } := by
    have hh : ({ s with revoked_at := some now } :
        RefreshSession).refresh_token_hash = hashFn t := hsh
    rw [← hh]
    refine findByHash_saveSession_self hsmem ?_ ?_
    · rfl
    · intro r hr hcon
      have hr2 : r = s := hash_eq_unique hnd hr hsmem hcon
      rw [hr2]
  unfold rotate_refresh_token get_refresh_session
  rw [hfound]
  simp [RefreshSession.is_active]

/-- C1 — Rotate failure criterion and predecessor invalidation:
`rotate_refresh_token(t)` fails with `InvalidRefreshTokenError` exactly
when no stored session hash equals the hash of `t` (never issued or already
superseded: after a successful rotation of `t0` returning `tok1`, replaying
`t0` fails with `InvalidRefreshTokenError` while rotating `tok1` succeeds),
and fails with `ExpiredRefreshTokenError` exactly when the matching session
exists but is not active; in particular after a successful
`revoke_refresh_token(t, owner)`, every subsequent rotation of `t` fails
with `ExpiredRefreshTokenError`. -/
theorem rotate_failure_criterion
    (hashFn : String → String) (store store1 store2 : SessionStore)
    (now : Int) (n1 n2 t0 t tok1 : String) (u : Nat) (s2 : RefreshSession)
    (hnd : hashesNodup store)
    (h0 : rotate_refresh_token hashFn store now n1 t0 = .ok (tok1, s2, store1))
    (hfresh : ∀ r ∈ store, r.refresh_token_hash ≠ hashFn n1)
    (hrev : revoke_refresh_token hashFn store now t u = .ok store2) :
    (∀ tk ntk : String,
      rotate_refresh_token hashFn store now ntk tk =
          .error .invalidRefreshToken ↔
        ∀ r ∈ store, r.refresh_token_hash ≠ hashFn tk) ∧
    (∀ tk ntk : String,
      rotate_refresh_token hashFn store now ntk tk =
          .error .expiredRefreshToken ↔
        ∃ r, findByHash store (hashFn tk) = some r ∧
          r.is_active now = false) ∧
    tok1 = n1 ∧
    rotate_refresh_token hashFn store1 now n2 t0 =
      .error .invalidRefreshToken ∧
    (∃ s3 store3,
      rotate_refresh_token hashFn store1 now n2 tok1 = .ok (n2, s3, store3)) ∧
    (∀ (now2 : Int) (ntk : String),
      rotate_refresh_token hashFn store2 now2 ntk t =
        .error .expiredRefreshToken) := by
  obtain ⟨s, hf, hact, htok, hs2, hst⟩ := rotate_refresh_token_ok_inv h0
  exact ⟨fun tk ntk => rotate_error_invalid_iff hashFn store now ntk tk,
    fun tk ntk => rotate_error_expired_iff hashFn store now ntk tk,
    htok,
    rotate_then_replay_invalid hnd h0 hfresh now n2,
    rotate_successor_succeeds hnd h0 hfresh n2,
    revoke_then_rotate_expired hnd hrev⟩

/-- C9 — Rotation linearizability: with `@transaction.atomic` each rotation
is one serial step against the store, so two concurrent
`rotate_refresh_token(t0)` calls execute in one of the two serialization
orders. In either order (the fresh tokens `n1`, `n2` are arbitrary, so the
other order is this statement with them swapped) the first call succeeds,
the second fails with `InvalidRefreshTokenError` — exactly one success —
and the surviving stored hash is the hash of the token returned by the
successful call. -/
theorem rotation_linearizability
    (hashFn : String → String) (store : SessionStore) (now : Int)
    (t0 n1 n2 : String) (s : RefreshSession)
    (hnd : hashesNodup store)
    (hf : findByHash store (hashFn t0) = some s)
    (hact : s.is_active now = true)
    (hfresh : ∀ r ∈ store, r.refresh_token_hash ≠ hashFn n1) :
    ∃ s2 store1,
      rotate_refresh_token hashFn store now n1 t0 = .ok (n1, s2, store1) ∧
      rotate_refresh_token hashFn store1 now n2 t0 =
        .error .invalidRefreshToken ∧
      findByHash store1 (hashFn n1) = some s2 ∧
      s2.refresh_token_hash = hashFn n1 := by
  have h0 := @rotate_refresh_token_found_active hashFn store now n1 t0 s hf hact
  obtain ⟨hfound, hh⟩ := rotate_updated_row_found h0 hfresh
  exact ⟨_, _, h0, rotate_then_replay_invalid hnd h0 hfresh now n2, hfound, hh⟩

/-- The session of `sessionEx` after one rotation to token "b". -/
def sessionExRotated : RefreshSession :=
  { id := 1
    refresh_token_hash := "#b"
    user_agent := "ua"
    ip_address := none
    created_at := 0
    last_used_at := some 0
    expires_at := 100
    revoked_at := none
    rotation_counter := 1
    userId := 7 }

/-- The session of `sessionEx` after revocation at time 0. -/
def sessionExRevoked : RefreshSession :=
  { id := 1
    refresh_token_hash := "#a"
    user_agent := "ua"
    ip_address := none
    created_at := 0
    last_used_at := none
    expires_at := 100
    revoked_at := some 0
    rotation_counter := 0
    userId := 7 }

/-- Witness for C1: replaying the superseded token "a" fails invalid, and
rotating after revocation fails expired, at concrete inputs. -/
theorem rotate_failure_criterion_witness :
    rotate_refresh_token hashEx [sessionExRotated] 0 "c" "a" =
      .error .invalidRefreshToken ∧
    rotate_refresh_token hashEx [sessionExRevoked] 3 "d" "a" =
      .error .expiredRefreshToken := by
  have h := rotate_failure_criterion hashEx [sessionEx] [sessionExRotated]
    [sessionExRevoked] 0 "b" "c" "a" "a" "b" 7 sessionExRotated
    (by decide) (by rfl) (by decide) (by rfl)
  exact ⟨h.2.2.2.1, h.2.2.2.2.2 3 "d"⟩

/-- Witness for C2 at a concrete table, time and tokens. -/
theorem rotation_frame_effect_witness :
    ∃ s2,
      rotate_refresh_token hashEx storeEx 5 "b" "a" =
        .ok ("b", s2, saveSession storeEx s2) ∧
      s2.refresh_token_hash = hashEx "b" ∧
      s2.rotation_counter = sessionEx.rotation_counter + 1 ∧
      s2.last_used_at = some 5 ∧
      s2.id = sessionEx.id ∧ s2.userId = sessionEx.userId ∧
      s2.user_agent = sessionEx.user_agent ∧
      s2.ip_address = sessionEx.ip_address ∧
      s2.created_at = sessionEx.created_at ∧
      s2.expires_at = sessionEx.expires_at ∧
      s2.revoked_at = sessionEx.revoked_at :=
  rotation_frame_effect hashEx storeEx 5 "b" "a" sessionEx rfl rfl

/-- Witness for C3: user 8 cannot revoke user 7's session, which stays
rotatable; only user 7's revocation succeeds. -/
theorem revoke_ownership_check_witness :
    revoke_refresh_token hashEx storeEx 0 "a" 8 =
      .error .invalidRefreshToken ∧
    sessionEx.revoked_at = none ∧
    (∃ s2, rotate_refresh_token hashEx storeEx 0 "z" "a" =
      .ok ("z", s2, saveSession storeEx s2)) ∧
    (revoke_refresh_token hashEx storeEx 0 "a" 7 = .ok [sessionExRevoked] →
      (7 : Nat) = sessionEx.userId) := by
  have h := revoke_ownership_check hashEx storeEx 0 "a" 8 sessionEx rfl rfl
    (by decide)
  exact ⟨h.1, h.2.1, h.2.2.1 "z", h.2.2.2 7 [sessionExRevoked]⟩

/-- Witness for C9 at a concrete table: order "b"-then-"c" yields one
success and one invalid error, hash "#b" surviving. -/
theorem rotation_linearizability_witness :
    ∃ s2 store1,
      rotate_refresh_token hashEx storeEx 0 "b" "a" = .ok ("b", s2, store1) ∧
      rotate_refresh_token hashEx store1 0 "c" "a" =
        .error .invalidRefreshToken ∧
      findByHash store1 (hashEx "b") = some s2 ∧
      s2.refresh_token_hash = hashEx "b" :=
  rotation_linearizability hashEx storeEx 0 "a" "b" "c" sessionEx
    (by decide) rfl rfl (by decide)

/-! ### Lemmas about claim dictionaries -/

/-- Appending bindings: the appended dict takes precedence on lookup. -/
theorem dictGet_append (l extra : Claims) (k : String) :
    dictGet (l ++ extra) k =
      match dictGet extra k with
      | some v => some v
      | none => dictGet l k := by
  induction l with
  | nil =>
    cases h1 : dictGet extra k <;> simp [dictGet, h1]
  | cons p t ih =>
    obtain ⟨k2, v2⟩ := p
    cases h1 : dictGet extra k <;>
      simp [dictGet, List.cons_append, ih, h1]

/-- A dict holding no binding of `k` looks `k` up to `none`. -/
theorem dictGet_eq_none_of_not_key (extra : Claims) (k : String)
    (h : ∀ p ∈ extra, p.1 ≠ k) : dictGet extra k = none := by
  induction extra with
  | nil => rfl
  | cons p t ih =>
    obtain ⟨k2, v2⟩ := p
    have hk2 : k2 ≠ k := h (k2, v2) (List.mem_cons_self _ _)
    have ht : dictGet t k = none :=
      ih (fun q hq => h q (List.mem_cons_of_mem _ hq))
    simp [dictGet, ht, hk2]

/-- A binding appended last wins the lookup of its key. -/
theorem dictGet_append_last (l : Claims) (k : String) (v : ClaimValue) :
    dictGet (l ++ [(k, v)]) k = some v := by
  rw [dictGet_append]
  simp [dictGet]

/-- When the appended bindings avoid `k`, the lookup of `k` is unchanged. -/
theorem dictGet_append_of_disjoint (l extra : Claims) (k : String)
    (h : ∀ p ∈ extra, p.1 ≠ k) :
    dictGet (l ++ extra) k = dictGet l k := by
  rw [dictGet_append, dictGet_eq_none_of_not_key extra k h]

/-- The claims payload carried by an encoded token (empty for a token that
does not parse). -/
def EncodedToken.payload : EncodedToken → Claims
  | .malformed _ => []
  | .signed t => t.claims

/-- Decoding an issued (extra-claim-free) access token before its expiry
succeeds and returns exactly the issued payload. -/
theorem decode_issued_ok (st : JWTServiceSettings) (uid : Nat) (now t : Int)
    (ht : t < now + st.access_token_expire) :
    decode_token st t (issue_access_token st now uid []) =
      .ok [("sub", .str (toString uid)),
        ("exp", .int (now + st.access_token_expire)),
        ("iat", .int now),
        ("typ", .str "at+jwt")] := by
  have hexp : ¬ (now + st.access_token_expire ≤ t) := by omega
  unfold decode_token jwtDecode issue_access_token jwtEncode
  simp [dictGet, hexp]

/-- Decoding a signed token with matching key and algorithm whose `exp`
claim lies in the future returns its claims. -/
theorem jwtDecode_encode_ok (key alg : String) (now : Int) (cs : Claims)
    (e : Int) (hget : dictGet cs "exp" = some (.int e)) (hlt : now < e) :
    jwtDecode key alg now (jwtEncode key alg cs) = .ok cs := by
  have hn : ¬ (e ≤ now) := by omega
  unfold jwtDecode jwtEncode
  simp [hget, hn]

/-- A concrete JWT configuration for witnesses (defaults: HS256, 15 min). -/
def stEx : JWTServiceSettings := { secret_key := "k" }

/-- C5 — Access-token round-trip: decoding an issued token (no extra
claims) at any time before its expiry succeeds, and the claims carry
`sub = str(userId)`, `iat = now` and `exp = now + accessTtl`; the TTL of a
default-constructed configuration is 15 minutes. -/
theorem access_token_round_trip (st : JWTServiceSettings) (uid : Nat)
    (now t : Int) (ht : t < now + st.access_token_expire) :
    (∃ cs, decode_token st t (issue_access_token st now uid []) = .ok cs ∧
      dictGet cs "sub" = some (.str (toString uid)) ∧
      dictGet cs "iat" = some (.int now) ∧
      dictGet cs "exp" = some (.int (now + st.access_token_expire))) ∧
    (∀ key : String,
      ({ secret_key := key } : JWTServiceSettings).access_token_expire =
        15 * 60) := by
  refine ⟨⟨_, decode_issued_ok st uid now t ht, ?_, ?_, ?_⟩, fun key => rfl⟩
  · simp [dictGet]
  · simp [dictGet]
  · simp [dictGet]

/-- Witness for C5 at a concrete key, user and clock. -/
theorem access_token_round_trip_witness :
    (∃ cs, decode_token stEx 10 (issue_access_token stEx 0 7 []) = .ok cs ∧
      dictGet cs "sub" = some (.str (toString (7 : Nat))) ∧
      dictGet cs "iat" = some (.int 0) ∧
      dictGet cs "exp" = some (.int (0 + stEx.access_token_expire))) ∧
    ({ secret_key := "k2" } : JWTServiceSettings).access_token_expire =
      15 * 60 := by
  have h := access_token_round_trip stEx 7 0 10 (by decide)
  exact ⟨h.1, h.2 "k2"⟩

/-- C6 — Decode failure taxonomy: a well-signed token whose `exp` has
passed fails with `ExpiredSignatureError` — in particular a token issued
with `exp = now - 1` does — while a malformed token, a bad signature and a
disallowed algorithm all fail with `InvalidTokenError`; a validly signed,
unexpired issued token does not fail. -/
theorem decode_failure_taxonomy (st : JWTServiceSettings) (now : Int) :
    (∀ (cs : Claims) (e : Int), dictGet cs "exp" = some (.int e) → e ≤ now →
      decode_token st now (jwtEncode st.secret_key st.algorithm cs) =
        .error .expiredSignature) ∧
    (∀ uid : Nat,
      decode_token st now
        (issue_access_token st (now - st.access_token_expire - 1) uid []) =
        .error .expiredSignature) ∧
    (∀ raw : String,
      decode_token st now (.malformed raw) = .error .invalidToken) ∧
    (∀ tk : SignedToken, tk.alg = st.algorithm →
      tk.mac ≠ macOf tk.alg st.secret_key tk.claims →
      decode_token st now (.signed tk) = .error .invalidToken) ∧
    (∀ tk : SignedToken, tk.alg ≠ st.algorithm →
      decode_token st now (.signed tk) = .error .invalidToken) ∧
    (∀ (uid : Nat) (iat : Int), now < iat + st.access_token_expire →
      ∃ cs, decode_token st now (issue_access_token st iat uid []) =
        .ok cs) := by
  refine ⟨?_, ?_, ?_, ?_, ?_, ?_⟩
  · intro cs e hget hle
    unfold decode_token jwtDecode jwtEncode
    simp [hget, hle]
  · intro uid
    have hle : (now - st.access_token_expire - 1) +
        st.access_token_expire ≤ now := by omega
    unfold decode_token jwtDecode issue_access_token jwtEncode
    simp [dictGet, hle]
  · intro raw
    rfl
  · intro tk halg hmac
    rw [halg] at hmac
    unfold decode_token jwtDecode
    simp [halg, hmac]
  · intro tk halg
    unfold decode_token jwtDecode
    simp [halg]
  · intro uid iat h
    exact ⟨_, decode_issued_ok st uid iat now h⟩

/-- Witness for C6 at concrete tokens. -/
theorem decode_failure_taxonomy_witness :
    decode_token stEx 0
      (jwtEncode stEx.secret_key stEx.algorithm [("exp", .int (-5))]) =
      .error .expiredSignature ∧
    decode_token stEx 0
      (issue_access_token stEx (0 - stEx.access_token_expire - 1) 7 []) =
      .error .expiredSignature ∧
    decode_token stEx 0 (.malformed "zz") = .error .invalidToken ∧
    decode_token stEx 0 (.signed ⟨"HS256", [], 0⟩) = .error .invalidToken ∧
    decode_token stEx 0 (.signed ⟨"none", [], 0⟩) = .error .invalidToken ∧
    (∃ cs, decode_token stEx 0 (issue_access_token stEx 0 7 []) =
      .ok cs) := by
  have h := decode_failure_taxonomy stEx 0
  exact ⟨h.1 [("exp", .int (-5))] (-5) rfl (by decide),
    h.2.1 7,
    h.2.2.1 "zz",
    h.2.2.2.1 ⟨"HS256", [], 0⟩ rfl (by decide),
    h.2.2.2.2.1 ⟨"none", [], 0⟩ (by decide),
    h.2.2.2.2.2 7 0 (by decide)⟩

/-- C10 — Extra claims override reserved claims: `issue_access_token`
merges `payload_kwargs` after the standard entries, so an extra claim named
`sub`, `exp`, `iat` or `typ` replaces the standard value on lookup; with an
extra `sub` differing from `str(user_id)`, the decoded `sub` is the
caller-supplied value and the round-trip property fails; the round trip is
restored when the extra claims avoid the standard keys. -/
theorem extra_claims_override (st : JWTServiceSettings) (uid : Nat)
    (now : Int) :
    (∀ k ∈ standardClaimKeys, ∀ v : ClaimValue,
      dictGet (EncodedToken.payload (issue_access_token st now uid [(k, v)]))
        k = some v) ∧
    (∀ x : String, x ≠ toString uid →
      dictGet (EncodedToken.payload
        (issue_access_token st now uid [("sub", .str x)])) "sub" =
        some (.str x) ∧
      dictGet (EncodedToken.payload
        (issue_access_token st now uid [("sub", .str x)])) "sub" ≠
        some (.str (toString uid))) ∧
    (0 < st.access_token_expire → ∀ x : String,
      decode_token st now (issue_access_token st now uid [("sub", .str x)]) =
        .ok (EncodedToken.payload
          (issue_access_token st now uid [("sub", .str x)]))) ∧
    (∀ extra : Claims, (∀ p ∈ extra, p.1 ∉ standardClaimKeys) →
      dictGet (EncodedToken.payload (issue_access_token st now uid extra))
        "sub" = some (.str (toString uid))) := by
  refine ⟨?_, ?_, ?_, ?_⟩
  · intro k hk v
    exact dictGet_append_last _ k v
  · intro x hx
    constructor
    · exact dictGet_append_last _ _ _
    · intro hcon
      have hcon2 := hcon
      rw [show (EncodedToken.payload
          (issue_access_token st now uid [("sub", .str x)])) =
        [("sub", ClaimValue.str (toString uid)),
          ("exp", ClaimValue.int (now + st.access_token_expire)),
          ("iat", ClaimValue.int now),
          ("typ", ClaimValue.str "at+jwt")] ++
          [("sub", ClaimValue.str x)] from rfl,
        dictGet_append_last] at hcon2
      simp at hcon2
      exact hx hcon2
  · intro httl x
    have hget : dictGet ([("sub", ClaimValue.str (toString uid)),
        ("exp", ClaimValue.int (now + st.access_token_expire)),
        ("iat", ClaimValue.int now),
        ("typ", ClaimValue.str "at+jwt")] ++
        [("sub", ClaimValue.str x)]) "exp" =
        some (.int (now + st.access_token_expire)) := by
      rw [dictGet_append_of_disjoint _ _ _ (by simp)]
      simp [dictGet]
    exact jwtDecode_encode_ok st.secret_key st.algorithm now _ _ hget
      (by omega)
  · intro extra hdisj
    have hd : ∀ p ∈ extra, p.1 ≠ "sub" := by
      intro p hp hc
      exact hdisj p hp (by rw [hc]; simp [standardClaimKeys])
    have hg : dictGet ([("sub", ClaimValue.str (toString uid)),
        ("exp", ClaimValue.int (now + st.access_token_expire)),
        ("iat", ClaimValue.int now),
        ("typ", ClaimValue.str "at+jwt")] ++ extra) "sub" =
        some (.str (toString uid)) := by
      rw [dictGet_append_of_disjoint _ _ _ hd]
      simp [dictGet]
    exact hg

/-- Witness for C10: overriding `sub` with "x" defeats the round trip for
user 7; an unreserved extra claim keeps it. -/
theorem extra_claims_override_witness :
    dictGet (EncodedToken.payload
      (issue_access_token stEx 0 7 [("sub", .str "x")])) "sub" =
      some (.str "x") ∧
    dictGet (EncodedToken.payload
      (issue_access_token stEx 0 7 [("sub", .str "x")])) "sub" ≠
      some (.str (toString (7 : Nat))) ∧
    dictGet (EncodedToken.payload
      (issue_access_token stEx 0 7 [("role", .str "admin")])) "sub" =
      some (.str (toString (7 : Nat))) := by
  have h := extra_claims_override stEx 7 0
  have h2 := h.2.1 "x" (by decide)
  exact ⟨h2.1, h2.2, h.2.2.2 [("role", .str "admin")] (by decide)⟩

/-- C4 — Rotation returns an access token: a successful call of the
refresh endpoint returns the new raw refresh token together with a freshly
issued access token for the rotated session's `user.pk`, whose decoded
`sub` claim equals `str(userId)`. -/
theorem refresh_endpoint_returns_access_token
    (jwtSt : JWTServiceSettings) (hashFn : String → String)
    (store : SessionStore) (now : Int) (newTok bt : String)
    (atk : EncodedToken) (rtk : String) (store2 : SessionStore)
    (httl : 0 < jwtSt.access_token_expire)
    (hsucc : refresh_user_token jwtSt hashFn store now newTok bt =
      .ok (atk, rtk, store2)) :
    rtk = newTok ∧
    ∃ s2, rotate_refresh_token hashFn store now newTok bt =
        .ok (newTok, s2, store2) ∧
      atk = issue_access_token jwtSt now s2.userId [] ∧
      ∃ cs, decode_token jwtSt now atk = .ok cs ∧
        dictGet cs "sub" = some (.str (toString s2.userId)) := by
  unfold refresh_user_token at hsucc
  cases hrot : rotate_refresh_token hashFn store now newTok bt with
  | error e =>
    rw [hrot] at hsucc
    simp at hsucc
  | ok res =>
    obtain ⟨tok, session, store3⟩ := res
    rw [hrot] at hsucc
    have hinj := Except.ok.inj hsucc
    have h1 : issue_access_token jwtSt now session.userId [] = atk :=
      congrArg Prod.fst hinj
    have h2 : tok = rtk := congrArg (fun p => p.2.1) hinj
    have h3 : store3 = store2 := congrArg (fun p => p.2.2) hinj
    obtain ⟨s, hf, hact, htok, hs2, hst⟩ := rotate_refresh_token_ok_inv hrot
    refine ⟨h2.symm.trans htok, session, ?_, h1.symm, ?_⟩
    · rw [htok, h3]
    · rw [← h1]
      refine ⟨_, decode_issued_ok jwtSt session.userId now now (by omega), ?_⟩
      simp [dictGet]

/-- Witness for C4 at a concrete refresh-endpoint invocation. -/
theorem refresh_endpoint_returns_access_token_witness :
    ("b" : String) = "b" ∧
    ∃ s2, rotate_refresh_token hashEx storeEx 0 "b" "a" =
        .ok ("b", s2, [sessionExRotated]) ∧
      issue_access_token stEx 0 7 [] = issue_access_token stEx 0 s2.userId [] ∧
      ∃ cs, decode_token stEx 0 (issue_access_token stEx 0 7 []) = .ok cs ∧
        dictGet cs "sub" = some (.str (toString s2.userId)) :=
  refresh_endpoint_returns_access_token stEx hashEx storeEx 0 "b" "a"
    (issue_access_token stEx 0 7 []) "b" [sessionExRotated]
    (by decide) (by rfl)

/-! ### Evaluation lemmas for the authentication gate -/

/-- The gate maps an expired-signature decode failure to 401
"Token has expired". -/
theorem jwt_auth_call_expired {st : JWTServiceSettings}
    {users : List GateUser} {now : Int} {tok : EncodedToken}
    (hdec : decode_token st now tok = .error .expiredSignature) :
    jwt_auth_call st users now tok = .unauthorized "Token has expired" := by
  unfold jwt_auth_call
  simp [hdec]

/-- The gate maps every other decode failure to 401 "Invalid token". -/
theorem jwt_auth_call_invalid {st : JWTServiceSettings}
    {users : List GateUser} {now : Int} {tok : EncodedToken}
    (hdec : decode_token st now tok = .error .invalidToken) :
    jwt_auth_call st users now tok = .unauthorized "Invalid token" := by
  unfold jwt_auth_call
  simp [hdec]

/-- The gate rejects a decoded payload without `sub` with 401. -/
theorem jwt_auth_call_no_sub {st : JWTServiceSettings}
    {users : List GateUser} {now : Int} {tok : EncodedToken}
    {payload : Claims}
    (hdec : decode_token st now tok = .ok payload)
    (hsub : dictGet payload "sub" = none) :
    jwt_auth_call st users now tok =
      .unauthorized "Token payload missing \x27sub\x27 field" := by
  unfold jwt_auth_call
  simp [hdec, hsub]

/-- The gate rejects a `sub` naming no existing user with 401
"User not found". -/
theorem jwt_auth_call_user_missing {st : JWTServiceSettings}
    {users : List GateUser} {now : Int} {tok : EncodedToken}
    {payload : Claims} {sub : ClaimValue}
    (hdec : decode_token st now tok = .ok payload)
    (hsub : dictGet payload "sub" = some sub)
    (hl : lookupUserById users sub = none) :
    jwt_auth_call st users now tok = .unauthorized "User not found" := by
  unfold jwt_auth_call
  simp [hdec, hsub, hl]

/-- The gate resolves the identity when decode, `sub` and lookup succeed. -/
theorem jwt_auth_call_eval_ok {st : JWTServiceSettings}
    {users : List GateUser} {now : Int} {tok : EncodedToken}
    {payload : Claims} {sub : ClaimValue} {u : GateUser}
    (hdec : decode_token st now tok = .ok payload)
    (hsub : dictGet payload "sub" = some sub)
    (hl : lookupUserById users sub = some u) :
    jwt_auth_call st users now tok = .ok u := by
  unfold jwt_auth_call
  simp [hdec, hsub, hl]

/-- The base gate never answers 403. -/
theorem jwt_auth_call_ne_forbidden (st : JWTServiceSettings)
    (users : List GateUser) (now : Int) (tok : EncodedToken) (d : String) :
    jwt_auth_call st users now tok ≠ .forbidden d := by
  intro hcon
  cases hdec : decode_token st now tok with
  | error e =>
    cases e with
    | expiredSignature =>
      rw [jwt_auth_call_expired hdec] at hcon
      exact AuthOutcome.noConfusion hcon
    | invalidToken =>
      rw [jwt_auth_call_invalid hdec] at hcon
      exact AuthOutcome.noConfusion hcon
  | ok payload =>
    cases hsub : dictGet payload "sub" with
    | none =>
      rw [jwt_auth_call_no_sub hdec hsub] at hcon
      exact AuthOutcome.noConfusion hcon
    | some sub =>
      cases hl : lookupUserById users sub with
      | none =>
        rw [jwt_auth_call_user_missing hdec hsub hl] at hcon
        exact AuthOutcome.noConfusion hcon
      | some u =>
        rw [jwt_auth_call_eval_ok hdec hsub hl] at hcon
        exact AuthOutcome.noConfusion hcon

/-- C7 — Authentication gate outcome mapping: the gate answers 401 exactly
when the token fails to decode (message "Token has expired" for an expired
token, "Invalid token" otherwise — same status), when the payload has no
`sub` claim, or when `sub` names no existing user; the base gate never
answers 403, and the staff/superuser predicates run only after successful
identity resolution, answering 403 (never 401) when the resolved user
lacks the required flag. -/
theorem auth_gate_outcome_mapping (st : JWTServiceSettings)
    (users : List GateUser) (now : Int) :
    (∀ tok : EncodedToken,
      (∃ d, jwt_auth_call st users now tok = .unauthorized d) ↔
        ((∃ e, decode_token st now tok = .error e) ∨
         (∃ cs, decode_token st now tok = .ok cs ∧
            dictGet cs "sub" = none) ∨
         (∃ cs sub, decode_token st now tok = .ok cs ∧
            dictGet cs "sub" = some sub ∧
            lookupUserById users sub = none))) ∧
    (∀ tok, decode_token st now tok = .error .expiredSignature →
      jwt_auth_call st users now tok = .unauthorized "Token has expired") ∧
    (∀ tok, decode_token st now tok = .error .invalidToken →
      jwt_auth_call st users now tok = .unauthorized "Invalid token") ∧
    (∀ (tok : EncodedToken) (d : String),
      jwt_auth_call st users now tok ≠ .forbidden d) ∧
    (∀ (tok : EncodedToken) (rs rsu : Bool) (u : GateUser),
      jwt_auth_call st users now tok = .ok u →
      jwt_auth_with_permissions st users now rs rsu tok =
        (if rs && !u.is_staff then .forbidden "Staff access required"
         else if rsu && !u.is_superuser then
           .forbidden "Superuser access required"
         else .ok u)) ∧
    (∀ (tok : EncodedToken) (rs rsu : Bool) (d : String),
      jwt_auth_with_permissions st users now rs rsu tok = .forbidden d →
        ∃ u, jwt_auth_call st users now tok = .ok u ∧
          ((rs && !u.is_staff) = true ∨
           (rsu && !u.is_superuser) = true)) := by
  refine ⟨?_, fun tok => jwt_auth_call_expired,
    fun tok => jwt_auth_call_invalid,
    jwt_auth_call_ne_forbidden st users now, ?_, ?_⟩
  · intro tok
    constructor
    · rintro ⟨d, hd⟩
      cases hdec : decode_token st now tok with
      | error e => exact .inl ⟨e, rfl⟩
      | ok payload =>
        cases hsub : dictGet payload "sub" with
        | none => exact .inr (.inl ⟨payload, rfl, hsub⟩)
        | some sub =>
          cases hl : lookupUserById users sub with
          | none => exact .inr (.inr ⟨payload, sub, rfl, hsub, hl⟩)
          | some u =>
            exfalso
            have hok := jwt_auth_call_eval_ok hdec hsub hl
            rw [hok] at hd
            exact AuthOutcome.noConfusion hd
    · rintro (⟨e, he⟩ | ⟨cs, hdec, hsub⟩ | ⟨cs, sub, hdec, hsub, hl⟩)
      · cases e with
        | expiredSignature => exact ⟨_, jwt_auth_call_expired he⟩
        | invalidToken => exact ⟨_, jwt_auth_call_invalid he⟩
      · exact ⟨_, jwt_auth_call_no_sub hdec hsub⟩
      · exact ⟨_, jwt_auth_call_user_missing hdec hsub hl⟩
  · intro tok rs rsu u hok
    unfold jwt_auth_with_permissions
    rw [hok]
  · intro tok rs rsu d hforb
    cases hcall : jwt_auth_call st users now tok with
    | ok u =>
      have heval : jwt_auth_with_permissions st users now rs rsu tok =
          (if rs && !u.is_staff then .forbidden "Staff access required"
           else if rsu && !u.is_superuser then
             .forbidden "Superuser access required"
           else .ok u) := by
        unfold jwt_auth_with_permissions
        rw [hcall]
      rw [heval] at hforb
      refine ⟨u, rfl, ?_⟩
      cases hstaff : rs && !u.is_staff with
      | true => exact .inl rfl
      | false =>
        rw [hstaff] at hforb
        cases hsup : rsu && !u.is_superuser with
        | true => exact .inr rfl
        | false =>
          rw [hsup] at hforb
          simp at hforb
    | unauthorized d2 =>
      have heval : jwt_auth_with_permissions st users now rs rsu tok =
          .unauthorized d2 := by
        unfold jwt_auth_with_permissions
        rw [hcall]
      rw [heval] at hforb
      exact AuthOutcome.noConfusion hforb
    | forbidden d2 =>
      exact absurd hcall (jwt_auth_call_ne_forbidden st users now tok d2)

/-- A concrete non-staff, non-superuser user for gate witnesses. -/
def gateUserEx : GateUser := { id := 7, is_staff := false, is_superuser := false }

set_option maxRecDepth 8192 in
/-- Witness for C7 at concrete tokens against a one-user table. -/
theorem auth_gate_outcome_mapping_witness :
    jwt_auth_call stEx [gateUserEx] 900 (issue_access_token stEx 0 7 []) =
      .unauthorized "Token has expired" ∧
    jwt_auth_call stEx [gateUserEx] 0 (.malformed "zz") =
      .unauthorized "Invalid token" ∧
    jwt_auth_with_permissions stEx [gateUserEx] 0 true false
      (issue_access_token stEx 0 7 []) = .forbidden "Staff access required" ∧
    (∃ u, jwt_auth_call stEx [gateUserEx] 0 (issue_access_token stEx 0 7 []) =
      .ok u ∧
      ((true && !u.is_staff) = true ∨ (false && !u.is_superuser) = true)) := by
  have h900 := auth_gate_outcome_mapping stEx [gateUserEx] 900
  have h0 := auth_gate_outcome_mapping stEx [gateUserEx] 0
  have hperm := h0.2.2.2.2.1 (issue_access_token stEx 0 7 []) true false
    gateUserEx (by rfl)
  refine ⟨h900.2.1 (issue_access_token stEx 0 7 []) (by rfl),
    h0.2.2.1 (.malformed "zz") (by rfl),
    hperm.trans (by rfl),
    h0.2.2.2.2.2 (issue_access_token stEx 0 7 []) true false
      "Staff access required" (hperm.trans (by rfl))⟩

/-- C8 — Credential-failure indistinguishability (two-run): against the
same user table, an existing username with a wrong password and a
nonexistent username produce identical observable failures — the
credential lookup returns `None` in both runs and the endpoint answers the
single generic 401 "Invalid username or password", leaving the store
untouched; in particular the two responses are equal. -/
theorem credential_failure_indistinguishable
    (jwtSt : JWTServiceSettings) (rsSt : RefreshSessionServiceSettings)
    (users : List CredUser) (hashFn : String → String)
    (store : SessionStore) (now : Int) (freshToken : String) (newId : Nat)
    (ua : String) (ip : Option String)
    (alice ghost pw1 pw2 : String) (u : CredUser)
    (hexists : users.find? (fun x => x.username == alice) = some u)
    (hwrong : u.password ≠ pw1)
    (hghost : users.find? (fun x => x.username == ghost) = none) :
    get_user_by_username_and_password users alice pw1 = none ∧
    get_user_by_username_and_password users ghost pw2 = none ∧
    issue_user_token jwtSt rsSt users hashFn store now freshToken newId
      ua ip alice pw1 =
      (.unauthorized "Invalid username or password", store) ∧
    issue_user_token jwtSt rsSt users hashFn store now freshToken newId
      ua ip alice pw1 =
      issue_user_token jwtSt rsSt users hashFn store now freshToken newId
        ua ip ghost pw2 := by
  have h1 : get_user_by_username_and_password users alice pw1 = none := by
    unfold get_user_by_username_and_password
    rw [hexists]
    simp [hwrong]
  have h2 : get_user_by_username_and_password users ghost pw2 = none := by
    unfold get_user_by_username_and_password
    rw [hghost]
  have h3 : issue_user_token jwtSt rsSt users hashFn store now freshToken
      newId ua ip alice pw1 =
      (.unauthorized "Invalid username or password", store) := by
    unfold issue_user_token
    rw [h1]
  have h4 : issue_user_token jwtSt rsSt users hashFn store now freshToken
      newId ua ip ghost pw2 =
      (.unauthorized "Invalid username or password", store) := by
    unfold issue_user_token
    rw [h2]
  exact ⟨h1, h2, h3, h3.trans h4.symm⟩

/-- A concrete user row for the credential witnesses. -/
def credUserEx : CredUser := { id := 7, username := "alice", password := "pw" }

/-- Witness for C8: wrong password for "alice" and unknown "ghost" give the
same generic 401. -/
theorem credential_failure_indistinguishable_witness :
    get_user_by_username_and_password [credUserEx] "alice" "wrong-pw" =
      none ∧
    get_user_by_username_and_password [credUserEx] "ghost" "anything" =
      none ∧
    issue_user_token stEx {} [credUserEx] hashEx [] 0 "f" 1 "" none
      "alice" "wrong-pw" =
      (.unauthorized "Invalid username or password", []) ∧
    issue_user_token stEx {} [credUserEx] hashEx [] 0 "f" 1 "" none
      "alice" "wrong-pw" =
      issue_user_token stEx {} [credUserEx] hashEx [] 0 "f" 1 "" none
        "ghost" "anything" :=
  credential_failure_indistinguishable stEx {} [credUserEx] hashEx [] 0
    "f" 1 "" none "alice" "ghost" "wrong-pw" "anything" credUserEx
    (by rfl) (by decide) (by rfl)
